import Mathlib

/-!
# Shallow embedding of the DeliveryCalculator widget

This development models the delivery-price map widget found in
`DeliveryCalculatorClass.js` and its near-duplicate second implementation
(referred to below as `part_000`).  Numbers are modelled as exact rationals,
JavaScript's `null` / `undefined` / `NaN` as explicit constructors, and the
single cancel-on-replace asynchronous route request as an explicit event-step
state machine.  All definitions are translated from the JavaScript source.
-/

namespace DeliveryCalc

/-- A JavaScript numeric-slot value: `null`, `undefined`, `NaN`, or a finite
number (modelled as an exact rational). -/
inductive JSNum where
  | null
  | undefined
  | nan
  | num (q : ℚ)
deriving Repr, DecidableEq

/-- JavaScript `Math.round`: rounds half toward positive infinity,
`Math.round x = ⌊x + 1/2⌋`. -/
def jsRound (q : ℚ) : ℤ := ⌊q + (1 : ℚ)/2⌋

/-! ## Configuration constants

`DeliveryCalculatorClass.js` uses `DELIVERY_TARIF = 0.80`, `MINIMUM_COST = 1`;
`part_000` uses `DELIVERY_TARIF = 20`, `MINIMUM_COST = 500`. -/

def DELIVERY_TARIF : ℚ := 0.80

def MINIMUM_COST : ℚ := 1

def DELIVERY_TARIF_B : ℚ := 20

def MINIMUM_COST_B : ℚ := 500

/-! ## Pricing -/

/-- `priceForKm` from `DeliveryCalculatorClass.js`:
`Math.max(kmRounded * DELIVERY_TARIF, MINIMUM_COST)`. -/
def priceForKm (kmRounded : ℚ) : ℚ :=
  max (kmRounded * DELIVERY_TARIF) MINIMUM_COST

/-- `buildPrice` from `part_000`:
`Math.max(kmRounded * DELIVERY_TARIF, MINIMUM_COST)` with that file's
constants. -/
def buildPrice (kmRounded : ℚ) : ℚ :=
  max (kmRounded * DELIVERY_TARIF_B) MINIMUM_COST_B

/-! ## Formatters -/

/-- Zero-pad a natural number below 100 to two decimal digits (the fractional
part produced by JavaScript's `toFixed(2)`). -/
def pad2 (n : ℕ) : String :=
  if n < 10 then "0" ++ toString n else toString n

/-- Render an exact number of hundredths (cents) the way `toFixed(2)` renders
the corresponding value: optional sign, integer part, a dot, and exactly two
digits. -/
def renderCenti (n : ℤ) : String :=
  (if n < 0 then "-" else "") ++ toString (n.natAbs / 100) ++ "." ++ pad2 (n.natAbs % 100)

/-- `fmtMoney` from `DeliveryCalculatorClass.js`:
`if (v == null || isNaN(v)) return '—'; return (Math.round(v*100)/100).toFixed(2);`.
`Math.round(v*100)/100` is an exact multiple of 1/100, so `toFixed(2)` renders
it directly with two decimal digits. -/
def fmtMoney : JSNum → String
  | .null => "—"
  | .undefined => "—"
  | .nan => "—"
  | .num v => renderCenti (jsRound (v * 100))

/-- `fmtSeconds` from `DeliveryCalculatorClass.js`:
`null`/`undefined`/`NaN` give `null`; otherwise the input is clamped to zero,
floored, split as `h = ⌊sec/3600⌋`, `m = ⌊(sec % 3600)/60⌋`, and rendered as
`(h > 0 ? h + ' h ' : '') + m + ' min'`. -/
def fmtSeconds : JSNum → Option String
  | .null => none
  | .undefined => none
  | .nan => none
  | .num q =>
      let sec : ℕ := (max 0 ⌊q⌋).toNat
      let h : ℕ := sec / 3600
      let m : ℕ := (sec % 3600) / 60
      some ((if h > 0 then toString h ++ " h " else "") ++ toString m ++ " min")

/-- `formatSecondsToHm` from `part_000`; its body is textually identical to
`fmtSeconds`. -/
def formatSecondsToHm : JSNum → Option String
  | .null => none
  | .undefined => none
  | .nan => none
  | .num q =>
      let sec : ℕ := (max 0 ⌊q⌋).toNat
      let h : ℕ := sec / 3600
      let m : ℕ := (sec % 3600) / 60
      some ((if h > 0 then toString h ++ " h " else "") ++ toString m ++ " min")

/-! ## Duration extraction (`getDurationSeconds`)

The router object handed back by the external provider is modelled by the
accessor shapes the code probes.  A JavaScript call site may find the method
absent (the `typeof … === 'function'` test fails), may throw, or may return a
value; a returned value may be a finite number, `NaN` (still of type
`'number'`), or anything else. -/

/-- Outcome of probing one accessor on the router. -/
inductive Probe (α : Type) where
  | absent
  | throws
  | ret (v : α)
deriving Repr, DecidableEq

/-- A value read from a router slot: a finite number, `NaN`, or a non-number
(which also covers an absent field). -/
inductive JSVal where
  | num (q : ℚ)
  | nan
  | other
deriving Repr, DecidableEq

/-- The object returned by `router.properties.get('duration')`: either falsy,
or an object with `value` and `duration` fields. -/
inductive DurObj where
  | nullish
  | obj (value : JSVal) (dfield : JSVal)
deriving Repr, DecidableEq

/-- The accessor shapes of the provider's router object that
`getDurationSeconds` probes. -/
structure Router where
  getJamsTime : Probe JSVal
  getTime : Probe JSVal
  propsGet : Probe DurObj
deriving Repr, DecidableEq

/-- `typeof v === 'number' && v >= 0` followed by `return v`. -/
def passNonneg : Probe JSVal → Option ℚ
  | .ret (.num q) => if 0 ≤ q then some q else none
  | _ => none

/-- `typeof v === 'number'` alone (`NaN` passes), as applied to the fields of
the `duration` object. -/
def asNumber : JSVal → Option JSNum
  | .num q => some (.num q)
  | .nan => some .nan
  | .other => none

/-- The first `try` block of `getDurationSeconds`: probe `getJamsTime`, then
`getTime`, each accepted only when it returns a non-negative number.  A throw
inside the block aborts it, so a throwing `getJamsTime` also skips
`getTime`. -/
def tryDirect (r : Router) : Option ℚ :=
  match r.getJamsTime with
  | .throws => none
  | g =>
      match passNonneg g with
      | some q => some q
      | none =>
          match r.getTime with
          | .throws => none
          | t => passNonneg t

/-- The second `try` block of `getDurationSeconds`: read
`router.properties.get('duration')` and return `dur.value` when it is a
number, else `dur.duration` when it is a number.  No sign check is applied
here. -/
def tryProps (r : Router) : Option JSNum :=
  match r.propsGet with
  | .throws => none
  | .absent => none
  | .ret .nullish => none
  | .ret (.obj v d) =>
      match asNumber v with
      | some n => some n
      | none => asNumber d

/-- `getDurationSeconds(router, lengthMeters)` from both implementations:
direct time accessors, then the `duration` property, then the 40 km/h
fallback `Math.round((lengthMeters / 1000) / 40 * 3600)`. -/
def getDurationSeconds (r : Router) (lengthMeters : ℚ) : JSNum :=
  match tryDirect r with
  | some q => .num q
  | none =>
      match tryProps r with
      | some n => n
      | none => .num ((jsRound (lengthMeters / 1000 / 40 * 3600) : ℤ) : ℚ)

/-- The probing procedure as the specification words it: try
`getJamsTime`, `getTime`, `duration.value`, `duration.duration` in order,
returning the first non-negative numeric result, else synthesize from
distance at 40 km/h.  Written from the spec's description, to be compared
with `getDurationSeconds` as translated from the source. -/
def specDurationProbe (r : Router) (lengthMeters : ℚ) : JSNum :=
  let fieldNonneg : JSVal → Option ℚ := fun v =>
    match v with
    | .num q => if 0 ≤ q then some q else none
    | _ => none
  let props : Option ℚ :=
    match r.propsGet with
    | .ret (.obj v d) =>
        match fieldNonneg v with
        | some q => some q
        | none => fieldNonneg d
    | _ => none
  match passNonneg r.getJamsTime with
  | some q => .num q
  | none =>
      match passNonneg r.getTime with
      | some q => .num q
      | none =>
          match props with
          | some q => .num q
          | none => .num ((jsRound (lengthMeters / 1000 / 40 * 3600) : ℤ) : ℚ)

/-! ## The route orchestrator (`_setupRoute` and its callbacks)

`_setupRoute` issues one asynchronous route request at a time.  Before issuing
it rejects the previous deferred when that deferred is still unsettled; the
success callback returns immediately when its own deferred has been rejected,
while the failure callback runs unconditionally.  The machine below has one
event per externally visible occurrence: `issue` is a `_setupRoute` call that
passed the both-points guard, and `succeed i res` / `fail i` are the provider
settling request `i`. -/

/-- The panel helper `updatePanel(distanceText, seconds, price)` from
`DeliveryCalculatorClass.js`, returning the three slot texts
(distance, time, cost). -/
def updatePanel (distanceText : String) (seconds : JSNum) (price : JSNum) :
    String × String × String :=
  ( if distanceText = "" then "—" else distanceText,
    match seconds with
    | .null => "—"
    | .undefined => "—"
    | s =>
        match fmtSeconds s with
        | some str => if str = "" then "—" else str
        | none => "—",
    (match price with
     | .null => "—"
     | .undefined => "—"
     | p => fmtMoney p) ++ " ₾" )

/-- The balloon message built by the success callback. -/
def routeMsg (distanceText : String) (price : ℚ) : String :=
  "<span>Distance: " ++ distanceText ++ ".</span><br/>" ++
  "<span style=\"font-weight: bold; font-style: italic\">Cost of delivery: " ++
  fmtMoney (.num price) ++ " ₾</span>"

/-- What a successful provider completion carries into the success callback:
the router object, its total length in meters, and the text produced by the
external `ymaps.formatter.distance` (an out-of-scope collaborator, so its
output is taken as given). -/
structure RouteSuccess where
  lengthMeters : ℚ
  distanceText : String
  router : Router
deriving Repr, DecidableEq

/-- The UI sinks the orchestrator writes to: the two balloons, the open flag of
the finish balloon, the three panel slots, and which request's route is drawn
on the map. -/
structure UI where
  startBalloon : String
  finishBalloon : String
  finishBalloonOpen : Bool
  panelDistance : String
  panelTime : String
  panelCost : String
  routeDrawn : Option ℕ
deriving Repr, DecidableEq

/-- Orchestrator state: the id counter, the current deferred's request id, the
sets of rejected and resolved request ids, the configured balloon content
prefixes, and the UI. -/
structure OrchState where
  nextId : ℕ
  current : Option ℕ
  rejected : List ℕ
  resolved : List ℕ
  startContent : String
  finishContent : String
  ui : UI
deriving Repr, DecidableEq

/-- Initial widget state: no request issued, balloons empty and closed, panel
slots at their placeholder, no route drawn. -/
def initState : OrchState :=
  { nextId := 0
    current := none
    rejected := []
    resolved := []
    startContent := ""
    finishContent := ""
    ui := { startBalloon := ""
            finishBalloon := ""
            finishBalloonOpen := false
            panelDistance := "—"
            panelTime := "—"
            panelCost := "—"
            routeDrawn := none } }

/-- An orchestrator event: `_setupRoute` issuing a request, or the provider
settling request `i`. -/
inductive REvent where
  | issue
  | succeed (i : ℕ) (res : RouteSuccess)
  | fail (i : ℕ)
deriving Repr, DecidableEq

/-- One orchestrator step.

`issue`: `if (this._deferred && !this._deferred.promise().isResolved())
this._deferred.reject('New request');` then a fresh deferred becomes current.

`succeed i res` (the success callback of request `i`): returns at once when
request `i`'s deferred is rejected; otherwise removes the old route, computes
distance text, rounded km, price, and duration, redraws the route, appends the
message to both balloons, updates the panel, opens the finish balloon, and
resolves the deferred.

`fail i` (the failure callback of request `i`): unconditionally sets the
finish balloon body to `"Can't build route"` and opens it. -/
def step (s : OrchState) : REvent → OrchState
  | .issue =>
      let s' :=
        match s.current with
        | some i =>
            if i ∉ s.resolved ∧ i ∉ s.rejected then
              { s with rejected := i :: s.rejected }
            else s
        | none => s
      { s' with current := some s.nextId, nextId := s.nextId + 1 }
  | .succeed i res =>
      if i ∈ s.rejected then s
      else
        let kmRounded : ℚ := (jsRound (res.lengthMeters / 1000) : ℤ)
        let price : ℚ := priceForKm kmRounded
        let seconds : JSNum := getDurationSeconds res.router res.lengthMeters
        let msg : String := routeMsg res.distanceText price
        let panel := updatePanel res.distanceText seconds (.num price)
        { s with
          resolved := i :: s.resolved
          ui := { startBalloon := s.startContent ++ msg
                  finishBalloon := s.finishContent ++ msg
                  finishBalloonOpen := true
                  panelDistance := panel.1
                  panelTime := panel.2.1
                  panelCost := panel.2.2
                  routeDrawn := some i } }
  | .fail _ =>
      { s with
        ui := { s.ui with
                finishBalloon := "Can't build route"
                finishBalloonOpen := true } }

/-- Run the orchestrator over a list of events. -/
def run (s : OrchState) (es : List REvent) : OrchState :=
  es.foldl step s

/-! ## Map clicks (`_onClick` / `setPoint`)

`_onClick` places the start point on the first click and the finish point on
every later click; in `DeliveryCalculatorClass.js` the route is re-requested by
`setPoint` itself once both points exist, while in `part_000` `_onClick` calls
`_setupRoute` (which guards on both points) after every `setPoint`.  The state
tracks the two point positions and how many times a route request got past the
both-points guard. -/

/-- A map coordinate pair. -/
abbrev Coords := ℚ × ℚ

/-- Point/trigger state of the widget. -/
structure ClickState where
  start : Option Coords
  finish : Option Coords
  routeCalls : ℕ
deriving Repr, DecidableEq

/-- Initial click state: no points placed, no route requested. -/
def initClick : ClickState := ⟨none, none, 0⟩

/-- `setPoint` of `DeliveryCalculatorClass.js`: place or move the requested
point, then `if (this._startPoint && this._finishPoint) this._setupRoute();`
(and `_setupRoute`'s own guard passes, issuing a request). -/
def setPointA (s : ClickState) (isStart : Bool) (pos : Coords) : ClickState :=
  let s' := if isStart then { s with start := some pos }
            else { s with finish := some pos }
  if s'.start.isSome && s'.finish.isSome then
    { s' with routeCalls := s'.routeCalls + 1 }
  else s'

/-- `_onClick` of `DeliveryCalculatorClass.js`: no start yet → set start; no
finish yet → set finish; otherwise move the finish point. -/
def onClickA (s : ClickState) (pos : Coords) : ClickState :=
  if s.start.isNone then setPointA s true pos
  else if s.finish.isNone then setPointA s false pos
  else setPointA s false pos

/-- `setPoint` of `part_000`: place or move the requested point only. -/
def setPointB (s : ClickState) (isStart : Bool) (pos : Coords) : ClickState :=
  if isStart then { s with start := some pos }
  else { s with finish := some pos }

/-- The both-points guard at the head of `_setupRoute` in `part_000`, counting
the route requests that get past it. -/
def setupRouteB (s : ClickState) : ClickState :=
  if s.start.isSome && s.finish.isSome then
    { s with routeCalls := s.routeCalls + 1 }
  else s

/-- `_onClick` of `part_000`: `setPoint` by the same role choice, then always
`this._setupRoute()`. -/
def onClickB (s : ClickState) (pos : Coords) : ClickState :=
  setupRouteB
    (if s.start.isNone then setPointB s true pos
     else if s.finish.isNone then setPointB s false pos
     else setPointB s false pos)

/-- Run the `DeliveryCalculatorClass.js` click handler over a click list. -/
def runClicksA (s : ClickState) (ps : List Coords) : ClickState :=
  ps.foldl onClickA s

/-- Run the `part_000` click handler over a click list. -/
def runClicksB (s : ClickState) (ps : List Coords) : ClickState :=
  ps.foldl onClickB s

/-! ## Helper lemmas -/

/-- The branch structure of `fmtSeconds` on a finite number, with the hour
test written as `1 ≤ h`. -/
theorem fmtSeconds_num (q : ℚ) :
    fmtSeconds (.num q) =
      some ((if 1 ≤ (max 0 ⌊q⌋).toNat / 3600 then
               toString ((max 0 ⌊q⌋).toNat / 3600) ++ " h " else "") ++
            toString (((max 0 ⌊q⌋).toNat % 3600) / 60) ++ " min") := rfl

/-- The two-digit pad always has length two below 100. -/
theorem pad2_length (k : ℕ) (h : k < 100) : (pad2 k).length = 2 := by
  revert h
  revert k
  decide

/-- `passNonneg` only produces non-negative numbers. -/
theorem passNonneg_nonneg (p : Probe JSVal) (q : ℚ) (h : passNonneg p = some q) :
    0 ≤ q := by
  rcases p with _ | _ | v
  · simp [passNonneg] at h
  · simp [passNonneg] at h
  · rcases v with w | _ | _
    · by_cases hw : 0 ≤ w
      · simp only [passNonneg, if_pos hw, Option.some.injEq] at h
        exact h ▸ hw
      · simp [passNonneg, hw] at h
    · simp [passNonneg] at h
    · simp [passNonneg] at h

/-- A value found by the first `try` block is non-negative. -/
theorem tryDirect_nonneg (r : Router) (q : ℚ) (h : tryDirect r = some q) :
    0 ≤ q := by
  obtain ⟨gj, gt, pp⟩ := r
  cases gj with
  | throws => simp [tryDirect] at h
  | absent =>
      simp only [tryDirect, passNonneg] at h
      cases gt with
      | throws => simp at h
      | absent => simp [passNonneg] at h
      | ret v => exact passNonneg_nonneg _ _ h
  | ret v =>
      simp only [tryDirect] at h
      cases hpn : passNonneg (Probe.ret v) with
      | some w =>
          simp only [hpn, Option.some.injEq] at h
          exact h ▸ passNonneg_nonneg _ _ hpn
      | none =>
          simp only [hpn] at h
          cases gt with
          | throws => simp at h
          | absent => simp [passNonneg] at h
          | ret t => exact passNonneg_nonneg _ _ h

/-- A field that passes the `typeof === number` test is a number value, never
`null` or `undefined`. -/
theorem asNumber_shape (v : JSVal) (n : JSNum) (h : asNumber v = some n) :
    n ≠ JSNum.null ∧ n ≠ JSNum.undefined := by
  cases v with
  | num q =>
      simp only [asNumber, Option.some.injEq] at h
      subst h
      exact ⟨by simp, by simp⟩
  | nan =>
      simp only [asNumber, Option.some.injEq] at h
      subst h
      exact ⟨by simp, by simp⟩
  | other => simp [asNumber] at h

/-- A value found by the `duration` property block is a number value, never
`null` or `undefined`. -/
theorem tryProps_shape (r : Router) (n : JSNum) (h : tryProps r = some n) :
    n ≠ JSNum.null ∧ n ≠ JSNum.undefined := by
  obtain ⟨gj, gt, pp⟩ := r
  rcases pp with _ | _ | d
  · simp [tryProps] at h
  · simp [tryProps] at h
  · rcases d with _ | ⟨v, df⟩
    · simp [tryProps] at h
    · simp only [tryProps] at h
      cases hv : asNumber v with
      | some m =>
          simp only [hv, Option.some.injEq] at h
          exact h ▸ asNumber_shape v m hv
      | none =>
          simp only [hv] at h
          exact asNumber_shape df n h

/-- The last element of a list with a head, expressed through `Option.or`. -/
theorem getLast?_cons_or {α : Type} (a : α) (l : List α) :
    (a :: l).getLast? = l.getLast?.or (some a) := by
  induction l generalizing a with
  | nil => rfl
  | cons b t ih =>
      rw [List.getLast?_cons_cons, ih b]
      cases htl : t.getLast? <;> simp [Option.or]

/-- The two `_onClick` implementations act identically on the point/trigger
state. -/
theorem onClick_eq (s : ClickState) (pos : Coords) :
    onClickB s pos = onClickA s pos := by
  obtain ⟨st, fi, n⟩ := s
  cases st <;> cases fi <;>
    simp [onClickA, onClickB, setPointA, setPointB, setupRouteB]

/-- The two click handlers agree on whole click sequences. -/
theorem runClicks_eq (ps : List Coords) (s : ClickState) :
    runClicksB s ps = runClicksA s ps := by
  induction ps generalizing s with
  | nil => rfl
  | cons p t ih =>
      show runClicksB (onClickB s p) t = runClicksA (onClickA s p) t
      rw [onClick_eq]
      exact ih _

/-- Behaviour of a click sequence from any state whose start point is already
placed: the start point survives, every click adds one route request, and the
finish point ends at the last click. -/
theorem runClicksA_go (ps : List Coords) (s : ClickState) (a : Coords)
    (h : s.start = some a) :
    (runClicksA s ps).start = some a ∧
    (runClicksA s ps).routeCalls = s.routeCalls + ps.length ∧
    (runClicksA s ps).finish = ps.getLast?.or s.finish := by
  induction ps generalizing s with
  | nil => exact ⟨h, by simp [runClicksA], by simp [runClicksA, Option.or]⟩
  | cons p rest ih =>
      have e : onClickA s p = ⟨some a, some p, s.routeCalls + 1⟩ := by
        obtain ⟨st, fi, n⟩ := s
        cases h
        cases fi <;> simp [onClickA, setPointA]
      have hstep : runClicksA s (p :: rest) = runClicksA (onClickA s p) rest := rfl
      rw [hstep, e]
      obtain ⟨h1, h2, h3⟩ := ih ⟨some a, some p, s.routeCalls + 1⟩ rfl
      refine ⟨h1, ?_, ?_⟩
      · rw [h2]
        simp only [List.length_cons]
        omega
      · rw [h3, getLast?_cons_or]
        cases htl : rest.getLast? <;> simp [Option.or]

/-! ## Claim theorems -/

/-- C3: for every non-negative distance `d` in rounded kilometers, both
pricing functions return `max (d * ratePerKm) minimumPrice` with their fixed
configuration constants; in particular the price is at least the configured
minimum. -/
theorem C3_price_floor (d : ℚ) (_hd : 0 ≤ d) :
    priceForKm d = max (d * DELIVERY_TARIF) MINIMUM_COST ∧
    MINIMUM_COST ≤ priceForKm d ∧
    buildPrice d = max (d * DELIVERY_TARIF_B) MINIMUM_COST_B ∧
    MINIMUM_COST_B ≤ buildPrice d :=
  ⟨rfl, le_max_right _ _, rfl, le_max_right _ _⟩

/-- C3 witness: the pricing contract evaluated at the concrete distance 12. -/
theorem C3_price_floor_witness :
    (0 : ℚ) ≤ 12 ∧
    (priceForKm 12 = max (12 * DELIVERY_TARIF) MINIMUM_COST ∧
     MINIMUM_COST ≤ priceForKm 12 ∧
     buildPrice 12 = max (12 * DELIVERY_TARIF_B) MINIMUM_COST_B ∧
     MINIMUM_COST_B ≤ buildPrice 12) :=
  ⟨by norm_num, C3_price_floor 12 (by norm_num)⟩

/-- C4: at and above the break-even distance `minimumPrice / ratePerKm` the
minimum-price floor is inactive and both pricing functions return exactly
`d * ratePerKm`. -/
theorem C4_floor_inactive (d : ℚ) :
    (MINIMUM_COST / DELIVERY_TARIF ≤ d → priceForKm d = d * DELIVERY_TARIF) ∧
    (MINIMUM_COST_B / DELIVERY_TARIF_B ≤ d → buildPrice d = d * DELIVERY_TARIF_B) := by
  constructor
  · intro h
    have hr : (0 : ℚ) < DELIVERY_TARIF := by norm_num [DELIVERY_TARIF]
    exact max_eq_left ((div_le_iff₀ hr).mp h)
  · intro h
    have hr : (0 : ℚ) < DELIVERY_TARIF_B := by norm_num [DELIVERY_TARIF_B]
    exact max_eq_left ((div_le_iff₀ hr).mp h)

/-- C4 witness: the floor is inactive at the concrete distance 25, which lies
above both break-even points. -/
theorem C4_floor_inactive_witness :
    (MINIMUM_COST / DELIVERY_TARIF ≤ (25 : ℚ) ∧
     priceForKm 25 = 25 * DELIVERY_TARIF) ∧
    (MINIMUM_COST_B / DELIVERY_TARIF_B ≤ (25 : ℚ) ∧
     buildPrice 25 = 25 * DELIVERY_TARIF_B) :=
  ⟨⟨by norm_num [MINIMUM_COST, DELIVERY_TARIF],
    (C4_floor_inactive 25).1 (by norm_num [MINIMUM_COST, DELIVERY_TARIF])⟩,
   ⟨by norm_num [MINIMUM_COST_B, DELIVERY_TARIF_B],
    (C4_floor_inactive 25).2 (by norm_num [MINIMUM_COST_B, DELIVERY_TARIF_B])⟩⟩

/-- C5: the duration formatter returns `none` on `null`, `undefined` and
`NaN`; on a number it clamps negatives to zero, floors to whole seconds, and
renders hours followed by minutes when the hour count is at least one and
minutes alone when it is zero; the listed concrete values evaluate as
specified. -/
theorem C5_duration_format :
    fmtSeconds .null = none ∧
    fmtSeconds .undefined = none ∧
    fmtSeconds .nan = none ∧
    (∀ q : ℚ,
      fmtSeconds (.num q) =
        some ((if 1 ≤ (max 0 ⌊q⌋).toNat / 3600 then
                 toString ((max 0 ⌊q⌋).toNat / 3600) ++ " h " else "") ++
              toString (((max 0 ⌊q⌋).toNat % 3600) / 60) ++ " min")) ∧
    fmtSeconds (.num 0) = some "0 min" ∧
    fmtSeconds (.num 3661) = some "1 h 1 min" ∧
    fmtSeconds (.num (-5)) = some "0 min" :=
  ⟨rfl, rfl, rfl, fmtSeconds_num, by decide, by decide, by decide⟩

/-- C6: the money formatter returns the placeholder on `null`, `undefined`
and `NaN`; on a number it renders the value rounded to hundredths with a dot
followed by exactly two digits, and it is a total function (no exception). -/
theorem C6_money_format :
    fmtMoney .null = "—" ∧
    fmtMoney .undefined = "—" ∧
    fmtMoney .nan = "—" ∧
    (∀ q : ℚ,
      fmtMoney (.num q) =
        (if jsRound (q * 100) < 0 then "-" else "") ++
        toString ((jsRound (q * 100)).natAbs / 100) ++ "." ++
        pad2 ((jsRound (q * 100)).natAbs % 100)) ∧
    (∀ q : ℚ, (pad2 ((jsRound (q * 100)).natAbs % 100)).length = 2) ∧
    fmtMoney (.num (12345/1000)) = "12.35" ∧
    fmtMoney (.num 5) = "5.00" := by
  have hj1 : jsRound ((12345/1000 : ℚ) * 100) = 1235 := by
    unfold jsRound
    rw [Int.floor_eq_iff]
    constructor <;> norm_num
  have hj2 : jsRound ((5 : ℚ) * 100) = 500 := by
    unfold jsRound
    rw [Int.floor_eq_iff]
    constructor <;> norm_num
  refine ⟨rfl, rfl, rfl, fun _ => rfl,
    fun _ => pad2_length _ (Nat.mod_lt _ (by norm_num)), ?_, ?_⟩
  · show renderCenti (jsRound ((12345/1000 : ℚ) * 100)) = "12.35"
    rw [hj1]
    decide
  · show renderCenti (jsRound ((5 : ℚ) * 100)) = "5.00"
    rw [hj2]
    decide

/-- C10: the duration formatters of the two implementations agree on every
input. -/
theorem C10_formatters_equal : ∀ v : JSNum, fmtSeconds v = formatSecondsToHm v := by
  intro v
  cases v <;> rfl

/-- Concrete router whose only duration source is a jam-aware time of 10. -/
def rJam : Router := ⟨.ret (.num 10), .absent, .absent⟩

/-- Concrete router whose only duration source is a travel time of 20. -/
def rTime : Router := ⟨.absent, .ret (.num 20), .absent⟩

/-- Concrete router whose only duration source is a `duration.value` of 30. -/
def rVal : Router := ⟨.absent, .absent, .ret (.obj (.num 30) .other)⟩

/-- Concrete router whose only duration source is a `duration.duration` of 40. -/
def rDur : Router := ⟨.absent, .absent, .ret (.obj .other (.num 40))⟩

/-- Concrete router exposing no duration accessor at all. -/
def rNone : Router := ⟨.absent, .absent, .absent⟩

/-- Concrete router whose `duration.value` is the negative number -3. -/
def rNegVal : Router := ⟨.absent, .absent, .ret (.obj (.num (-3)) .other)⟩

/-- C7 counterexample: on a router whose only accessor is a `duration`
property with `value = -3`, the code returns -3, while the procedure worded in
the claim (first non-negative numeric result, else the 40 km/h fallback)
returns 3600 at 40000 meters; so the claim as stated is false. -/
theorem C7_counterexample :
    getDurationSeconds rNegVal 40000 = .num (-3) ∧
    specDurationProbe rNegVal 40000 = .num 3600 ∧
    JSNum.num (-3) ≠ JSNum.num 3600 := by
  have hj : jsRound ((40000 : ℚ) / 1000 / 40 * 3600) = 3600 := by
    unfold jsRound
    rw [Int.floor_eq_iff]
    constructor <;> norm_num
  refine ⟨by decide, ?_, by decide⟩
  show JSNum.num ((jsRound ((40000 : ℚ) / 1000 / 40 * 3600) : ℤ) : ℚ) = JSNum.num 3600
  rw [hj]
  norm_num

/-- C7 (amended): `getDurationSeconds` probes in exactly the order jam-aware
time, travel time, `duration.value`, `duration.duration`, fallback; the first
two probes accept only a non-negative number (a throw in their `try` block
also skips `getTime`), while the two `duration` property probes accept any
numeric value with no sign check, and the fallback synthesizes the duration
from distance at 40 km/h. -/
theorem C7_probe_order (r : Router) (m : ℚ) :
    (∀ q : ℚ, r.getJamsTime = .ret (.num q) → 0 ≤ q →
        getDurationSeconds r m = .num q) ∧
    (∀ q : ℚ, r.getJamsTime ≠ .throws → passNonneg r.getJamsTime = none →
        r.getTime = .ret (.num q) → 0 ≤ q → getDurationSeconds r m = .num q) ∧
    (∀ (v d : JSVal) (n : JSNum), tryDirect r = none →
        r.propsGet = .ret (.obj v d) → asNumber v = some n →
        getDurationSeconds r m = n) ∧
    (∀ (v d : JSVal) (n : JSNum), tryDirect r = none →
        r.propsGet = .ret (.obj v d) → asNumber v = none → asNumber d = some n →
        getDurationSeconds r m = n) ∧
    (tryDirect r = none → tryProps r = none →
        getDurationSeconds r m =
          .num ((jsRound (m / 1000 / 40 * 3600) : ℤ) : ℚ)) := by
  refine ⟨?_, ?_, ?_, ?_, ?_⟩
  · intro q hj hq
    have hd : tryDirect r = some q := by
      simp [tryDirect, hj, passNonneg, hq]
    simp [getDurationSeconds, hd]
  · intro q hnt hpn ht hq
    have hd : tryDirect r = some q := by
      unfold tryDirect
      rcases hj : r.getJamsTime with _ | _ | v
      · rw [hj] at hpn
        simp only [hpn]
        simp [ht, passNonneg, hq]
      · exact absurd hj hnt
      · rw [hj] at hpn
        simp only [hpn]
        simp [ht, passNonneg, hq]
    simp [getDurationSeconds, hd]
  · intro v d n hdir hp hv
    have hps : tryProps r = some n := by
      simp [tryProps, hp, hv]
    simp [getDurationSeconds, hdir, hps]
  · intro v d n hdir hp hv hd2
    have hps : tryProps r = some n := by
      simp [tryProps, hp, hv, hd2]
    simp [getDurationSeconds, hdir, hps]
  · intro hdir hps
    simp [getDurationSeconds, hdir, hps]

/-- C7 witness: each probe level exercised on a concrete router, and the
fallback value computed at 40000 meters. -/
theorem C7_probe_order_witness :
    getDurationSeconds rJam 0 = .num 10 ∧
    getDurationSeconds rTime 0 = .num 20 ∧
    getDurationSeconds rVal 0 = .num 30 ∧
    getDurationSeconds rDur 0 = .num 40 ∧
    getDurationSeconds rNone 40000 =
      .num ((jsRound ((40000 : ℚ) / 1000 / 40 * 3600) : ℤ) : ℚ) :=
  ⟨(C7_probe_order rJam 0).1 10 rfl (by decide),
   (C7_probe_order rTime 0).2.1 20 (by decide) (by decide) rfl (by decide),
   (C7_probe_order rVal 0).2.2.1 (.num 30) .other (.num 30) (by decide) rfl rfl,
   (C7_probe_order rDur 0).2.2.2.1 .other (.num 40) (.num 40) (by decide) rfl rfl rfl,
   (C7_probe_order rNone 40000).2.2.2.2 (by decide) (by decide)⟩

/-- Concrete router whose `duration.value` is the negative number -5. -/
def rNegDur : Router := ⟨.absent, .absent, .ret (.obj (.num (-5)) .other)⟩

/-- C9 counterexample: at the non-negative length 1000 the router whose
`duration.value` is -5 makes `getDurationSeconds` return the negative number
-5, so the function does not always return a non-negative number. -/
theorem C9_counterexample :
    (0 : ℚ) ≤ 1000 ∧
    getDurationSeconds rNegDur 1000 = .num (-5) ∧
    ¬ (0 ≤ (-5 : ℚ)) := by
  refine ⟨by decide, by decide, by decide⟩

/-- C9 (amended): `getDurationSeconds` always returns a number slot value,
never `null` or `undefined`; and whenever the `duration` property block
yields nothing — in particular when the provider exposes no duration accessor
at all — the result at a non-negative length is a non-negative number, the
first two probes being sign-checked and the 40 km/h fallback being
non-negative. -/
theorem C9_total_nonneg (r : Router) (m : ℚ) :
    getDurationSeconds r m ≠ .null ∧
    getDurationSeconds r m ≠ .undefined ∧
    (0 ≤ m → tryProps r = none →
      ∃ q : ℚ, getDurationSeconds r m = .num q ∧ 0 ≤ q) := by
  refine ⟨?_, ?_, ?_⟩
  · cases hd : tryDirect r with
    | some q => simp [getDurationSeconds, hd]
    | none =>
        cases hp : tryProps r with
        | some n =>
            have hs := tryProps_shape r n hp
            simpa [getDurationSeconds, hd, hp] using hs.1
        | none => simp [getDurationSeconds, hd, hp]
  · cases hd : tryDirect r with
    | some q => simp [getDurationSeconds, hd]
    | none =>
        cases hp : tryProps r with
        | some n =>
            have hs := tryProps_shape r n hp
            simpa [getDurationSeconds, hd, hp] using hs.2
        | none => simp [getDurationSeconds, hd, hp]
  · intro hm hp
    cases hd : tryDirect r with
    | some q =>
        exact ⟨q, by simp [getDurationSeconds, hd], tryDirect_nonneg r q hd⟩
    | none =>
        refine ⟨((jsRound (m / 1000 / 40 * 3600) : ℤ) : ℚ),
          by simp [getDurationSeconds, hd, hp], ?_⟩
        have h1 : (0 : ℚ) ≤ m / 1000 / 40 * 3600 :=
          mul_nonneg (div_nonneg (div_nonneg hm (by norm_num)) (by norm_num))
            (by norm_num)
        have h2 : (0 : ℤ) ≤ jsRound (m / 1000 / 40 * 3600) := by
          unfold jsRound
          refine Int.le_floor.mpr ?_
          push_cast
          linarith
        exact_mod_cast h2

/-- Concrete router for the C9 witness, exposing no accessors. -/
def rNoAccessors : Router := ⟨.absent, .absent, .absent⟩

/-- C9 witness: on a router with no accessors and length 1000 the result is a
defined non-negative number. -/
theorem C9_total_nonneg_witness :
    getDurationSeconds rNoAccessors 1000 ≠ .null ∧
    getDurationSeconds rNoAccessors 1000 ≠ .undefined ∧
    ((0 : ℚ) ≤ 1000 ∧
     ∃ q : ℚ, getDurationSeconds rNoAccessors 1000 = .num q ∧ 0 ≤ q) :=
  ⟨(C9_total_nonneg rNoAccessors 1000).1,
   (C9_total_nonneg rNoAccessors 1000).2.1,
   by decide,
   (C9_total_nonneg rNoAccessors 1000).2.2 (by decide) (by decide)⟩

/-- C1 counterexample: issue two requests (the first is superseded: its
deferred is rejected when the second is issued), then let request 0 fail.
The failure callback runs unguarded, so the superseded completion changes the
UI — the finish balloon becomes the failure message and opens — contradicting
the claim that a superseded completion produces no UI side effect whether the
provider resolves or fails. -/
theorem C1_counterexample :
    0 ∈ (run initState [.issue, .issue]).rejected ∧
    (run initState [.issue, .issue]).ui.finishBalloon = "" ∧
    (run initState [.issue, .issue]).ui.finishBalloonOpen = false ∧
    (run initState [.issue, .issue, .fail 0]).ui.finishBalloon =
      "Can't build route" ∧
    (run initState [.issue, .issue, .fail 0]).ui.finishBalloonOpen = true ∧
    (run initState [.issue, .issue, .fail 0]).ui ≠
      (run initState [.issue, .issue]).ui := by
  refine ⟨by decide, by decide, by decide, by decide, by decide, by decide⟩

/-- C1 (amended): issuing while a request is pending marks it rejected, a
rejected request stays rejected under every later event, and the successful
completion of a rejected request is a complete no-op — no balloon, panel or
route change; only a superseded request that fails still produces the
failure-balloon side effect (see the counterexample), so only successful
outcomes are confined to the most recently issued request. -/
theorem C1_superseded_success_discarded (s : OrchState) (i : ℕ) :
    (s.current = some i → i ∉ s.resolved → i ∉ s.rejected →
        i ∈ (step s .issue).rejected) ∧
    (∀ res : RouteSuccess, i ∈ s.rejected → step s (.succeed i res) = s) ∧
    (∀ e : REvent, i ∈ s.rejected → i ∈ (step s e).rejected) := by
  refine ⟨?_, ?_, ?_⟩
  · intro hc h1 h2
    simp [step, hc, h1, h2]
  · intro res h
    simp [step, h]
  · intro e h
    cases e with
    | issue =>
        cases hc : s.current with
        | none => simpa [step, hc] using h
        | some j =>
            by_cases hj : j ∉ s.resolved ∧ j ∉ s.rejected
            · simp only [step, hc, if_pos hj]
              exact List.mem_cons_of_mem _ h
            · simpa [step, hc, hj] using h
    | succeed j res =>
        by_cases hj : j ∈ s.rejected
        · simpa [step, hj] using h
        · simpa [step, hj] using h
    | fail j => simpa [step] using h

/-- C1 witness: in the concrete two-request run, issuing marks the pending
request 1 rejected, the success of the rejected request 0 changes nothing,
and rejection persists across a later event. -/
theorem C1_superseded_success_discarded_witness :
    ((run initState [.issue, .issue]).current = some 1 ∧
     1 ∈ (step (run initState [.issue, .issue]) .issue).rejected) ∧
    (0 ∈ (run initState [.issue, .issue]).rejected ∧
     step (run initState [.issue, .issue])
       (.succeed 0 ⟨1000, "1 km", ⟨.absent, .absent, .absent⟩⟩) =
       run initState [.issue, .issue]) ∧
    0 ∈ (step (run initState [.issue, .issue]) (.fail 7)).rejected :=
  ⟨⟨by decide,
    (C1_superseded_success_discarded (run initState [.issue, .issue]) 1).1
      (by decide) (by decide) (by decide)⟩,
   ⟨by decide,
    (C1_superseded_success_discarded (run initState [.issue, .issue]) 0).2.1
      ⟨1000, "1 km", ⟨.absent, .absent, .absent⟩⟩ (by decide)⟩,
   (C1_superseded_success_discarded (run initState [.issue, .issue]) 0).2.2
     (.fail 7) (by decide)⟩

/-- C2: the failure callback of any request sets the finish balloon body to
the fixed message and opens the balloon, and changes nothing else: the three
panel slots, the start balloon, the drawn route, and the whole request
bookkeeping (so no retry is issued) are untouched; the step is a total
function, so no exception propagates. -/
theorem C2_failure_display (s : OrchState) (i : ℕ) :
    (step s (.fail i)).ui.finishBalloon = "Can't build route" ∧
    (step s (.fail i)).ui.finishBalloonOpen = true ∧
    (step s (.fail i)).ui.panelDistance = s.ui.panelDistance ∧
    (step s (.fail i)).ui.panelTime = s.ui.panelTime ∧
    (step s (.fail i)).ui.panelCost = s.ui.panelCost ∧
    (step s (.fail i)).ui.startBalloon = s.ui.startBalloon ∧
    (step s (.fail i)).ui.routeDrawn = s.ui.routeDrawn ∧
    (step s (.fail i)).nextId = s.nextId ∧
    (step s (.fail i)).current = s.current ∧
    (step s (.fail i)).rejected = s.rejected ∧
    (step s (.fail i)).resolved = s.resolved :=
  ⟨rfl, rfl, rfl, rfl, rfl, rfl, rfl, rfl, rfl, rfl, rfl⟩

/-- C8: for every nonempty click sequence, in both implementations the first
click sets the start point and no later click moves it, the finish point ends
at the last click after the first (absent when there was only one click), and
a route request is triggered on each click from the second on. -/
theorem C8_click_protocol (p : Coords) (rest : List Coords) :
    (runClicksA initClick (p :: rest)).start = some p ∧
    (runClicksA initClick (p :: rest)).finish = rest.getLast? ∧
    (runClicksA initClick (p :: rest)).routeCalls = rest.length ∧
    (runClicksB initClick (p :: rest)).start = some p ∧
    (runClicksB initClick (p :: rest)).finish = rest.getLast? ∧
    (runClicksB initClick (p :: rest)).routeCalls = rest.length := by
  have e0 : onClickA initClick p = ⟨some p, none, 0⟩ := by
    simp [onClickA, setPointA, initClick]
  have hstep : runClicksA initClick (p :: rest) =
      runClicksA (onClickA initClick p) rest := rfl
  obtain ⟨h1, h2, h3⟩ := runClicksA_go rest ⟨some p, none, 0⟩ p rfl
  have hA : (runClicksA initClick (p :: rest)).start = some p ∧
      (runClicksA initClick (p :: rest)).finish = rest.getLast? ∧
      (runClicksA initClick (p :: rest)).routeCalls = rest.length := by
    rw [hstep, e0]
    refine ⟨h1, ?_, ?_⟩
    · rw [h3]
      cases htl : rest.getLast? <;> simp [Option.or]
    · rw [h2]
      simp
  have hB : runClicksB initClick (p :: rest) = runClicksA initClick (p :: rest) :=
    runClicks_eq _ _
  exact ⟨hA.1, hA.2.1, hA.2.2, by rw [hB]; exact hA.1, by rw [hB]; exact hA.2.1,
    by rw [hB]; exact hA.2.2⟩

end DeliveryCalc
